import Mathlib

/-!
Shallow embedding of the lightdm greeter client library
(src/liblightdm-gobject/greeter.c) in Lean 4.

C strings are modelled as lists of bytes (`CStr`), without the trailing
NUL terminator; NULL pointers for optional strings are modelled with
`Option`.  Machine integers (`guint32`, `gsize`) are modelled as `Nat`
with explicit `% 2 ^ 32` where 32-bit overflow matters; `gsize`
subtractions in the source only occur at call sites that keep the
offset at most `n_read`, where truncated `Nat` subtraction agrees with
the unsigned C subtraction.
-/

/-- A C byte string, without its NUL terminator. -/
abbrev CStr := List Nat

/-- greeter.c line 117: maximum outgoing message size. -/
def MAX_MESSAGE_LENGTH : Nat := 1024

/-- greeter.c line 116: size of the message header (two 4-byte ints). -/
def HEADER_SIZE : Nat := 8

/-- greeter.c lines 122-131: message ids from the greeter to the server. -/
def GREETER_MESSAGE_CONNECT : Nat := 0

def GREETER_MESSAGE_LOGIN : Nat := 1

def GREETER_MESSAGE_LOGIN_AS_GUEST : Nat := 2

def GREETER_MESSAGE_CONTINUE_AUTHENTICATION : Nat := 3

def GREETER_MESSAGE_START_SESSION : Nat := 4

def GREETER_MESSAGE_CANCEL_AUTHENTICATION : Nat := 5

/-- greeter.c lines 133-141: message ids from the server to the greeter. -/
def SERVER_MESSAGE_CONNECTED : Nat := 0

def SERVER_MESSAGE_QUIT : Nat := 1

def SERVER_MESSAGE_PROMPT_AUTHENTICATION : Nat := 2

def SERVER_MESSAGE_END_AUTHENTICATION : Nat := 3

def SERVER_MESSAGE_SESSION_FAILED : Nat := 4

/-- Modelled from the spec (the constants come from the system header
security/pam_appl.h, which is not part of this repository): the
Linux-PAM message style codes used by handle_prompt_authentication. -/
def PAM_PROMPT_ECHO_OFF : Nat := 1

def PAM_PROMPT_ECHO_ON : Nat := 2

def PAM_ERROR_MSG : Nat := 3

def PAM_TEXT_INFO : Nat := 4

/-- greeter.c lines 167-171: `int_length`, the wire size of an integer. -/
def int_length : Nat := 4

/-- The four big-endian bytes a `write_int` stores (greeter.c lines
190-193): the `guint8` assignments truncate each byte modulo 256
(`value >> 16 & 0xFF` in C is `value >>> 16 &&& 255` here). -/
def intBytes (value : Nat) : List Nat :=
  [(value >>> 24) % 256, (value >>> 16) &&& 255,
   (value >>> 8) &&& 255, value &&& 255]

/-- greeter.c lines 185-195: `write_int`.  The C function writes four
big-endian bytes of a `guint32` into `buffer` at `*offset` and advances
the offset, unless `*offset + 4 >= buffer_length`, in which case it
returns without writing.  Because all writes are sequential from offset
0, the buffer is modelled as the list of bytes written so far (whose
length is the current offset). -/
def write_int (buffer_length : Nat) (acc : List Nat) (value : Nat) : List Nat :=
  if acc.length + 4 ≥ buffer_length then acc
  else acc ++ intBytes value

/-- greeter.c lines 197-206: `write_string` writes the 4-byte length and
then the raw bytes, skipping the byte copy (but not the length) when
`*offset + length >= buffer_length`. -/
def write_string (buffer_length : Nat) (acc : List Nat) (value : CStr) : List Nat :=
  let acc1 := write_int buffer_length acc value.length
  if acc1.length + value.length ≥ buffer_length then acc1
  else acc1 ++ value

/-- greeter.c lines 245-249: `string_length`, wire size of a string. -/
def string_length (value : CStr) : Nat := int_length + value.length

/-- greeter.c lines 251-256: `write_header` writes the id then the length. -/
def write_header (buffer_length : Nat) (acc : List Nat) (id length : Nat) : List Nat :=
  write_int buffer_length (write_int buffer_length acc id) length

/-- greeter.c lines 208-222: `read_int`.  `buf` is the `read_buffer`
restricted to the `n_read` bytes actually received, so `buf.length`
plays the role of `n_read`.  If fewer than four bytes remain the
function warns and returns 0 without advancing the offset; otherwise it
recomposes the big-endian value with shifts and bitwise or exactly as
the C expression `buffer[0] << 24 | buffer[1] << 16 | buffer[2] << 8 |
buffer[3]` does.  (`gsize` is unsigned; every call site keeps
`offset ≤ n_read`, where truncated `Nat` subtraction matches C.) -/
def read_int (buf : List Nat) (offset : Nat) : Nat × Nat :=
  if buf.length - offset < int_length then (0, offset)
  else (buf.getD offset 0 <<< 24 ||| buf.getD (offset + 1) 0 <<< 16 |||
        buf.getD (offset + 2) 0 <<< 8 ||| buf.getD (offset + 3) 0,
        offset + int_length)

/-- greeter.c lines 224-243: `read_string` reads a length then that many
raw bytes; if fewer bytes remain than the declared length it warns and
returns the empty string (`g_strdup ("")`) without advancing past the
length field. -/
def read_string (buf : List Nat) (offset : Nat) : CStr × Nat :=
  let r := read_int buf offset
  if buf.length - r.2 < r.1 then ([], r.2)
  else ((buf.drop r.2).take r.1, r.2 + r.1)

/-- The wire bytes produced by `ldm_greeter_login` (greeter.c lines
1315-1317): header with id LOGIN and declared payload length
`int_length () + string_length (username)`, then the sequence number,
then the username. -/
def loginMessage (sequence_number : Nat) (username : CStr) : List Nat :=
  write_string MAX_MESSAGE_LENGTH
    (write_int MAX_MESSAGE_LENGTH
      (write_header MAX_MESSAGE_LENGTH [] GREETER_MESSAGE_LOGIN
        (int_length + string_length username))
      sequence_number)
    username

/-- Decoding a LOGIN frame back: generic frame header (id, declared
length) via `read_int` as in from_server_cb (greeter.c lines 445-447),
then the payload sequence number and username, as the daemon's reader
would.  Returns (id, declared length, sequence number, username). -/
def decodeLogin (buf : List Nat) : Nat × Nat × Nat × CStr :=
  let r1 := read_int buf 0
  let r2 := read_int buf r1.2
  let r3 := read_int buf r2.2
  let r4 := read_string buf r3.2
  (r1.1, r2.1, r3.1, r4.1)

/-- Prompt kinds of the SHOW_PROMPT signal (lightdm/greeter.h):
LDM_PROMPT_TYPE_QUESTION / LDM_PROMPT_TYPE_SECRET. -/
inductive PromptType where
  | question
  | secret
deriving DecidableEq, Repr

/-- Message kinds of the SHOW_MESSAGE signal (lightdm/greeter.h):
LDM_MESSAGE_TYPE_ERROR / LDM_MESSAGE_TYPE_INFO. -/
inductive MessageType where
  | error
  | info
deriving DecidableEq, Repr

/-- A cached user record, greeter.c `LdmUser` (the object lives in
user.c, outside src/; its observable fields are those the spec's data
model lists).  `objId` models the C object's pointer identity: the
removal scan in load_users compares list entries by pointer
(`new_link->data == link->data`), which the embedding renders as
equality of `objId`. -/
structure LdmUser where
  objId : Nat
  name : CStr
  real_name : Option CStr
  home_directory : CStr
  image : Option CStr
  logged_in : Bool
deriving DecidableEq, Repr

/-- The notifications (GObject signals) the greeter emits, greeter.c
lines 53-65. -/
inductive Event where
  | connected
  | showPrompt (text : CStr) (kind : PromptType)
  | showMessage (text : CStr) (kind : MessageType)
  | authenticationComplete
  | sessionFailed
  | autologinTimerExpired
  | userAdded (user : LdmUser)
  | userChanged (user : LdmUser)
  | userRemoved (user : LdmUser)
  | quit
deriving DecidableEq, Repr

/-- The protocol-facing fields of `LdmGreeterPrivate` (greeter.c lines
68-112).  The user list and its `have_users` flag are threaded
explicitly through `load_users` below; channels, timers and the X/D-Bus
handles are event-loop I/O outside this embedding. -/
structure Greeter where
  authentication_user : Option CStr
  in_authentication : Bool
  is_authenticated : Bool
  authenticate_sequence_number : Nat
  cancelling_authentication : Bool
  hints : List (CStr × CStr)
deriving DecidableEq, Repr

/-- The zero-initialised state `ldm_greeter_init` produces (greeter.c
lines 1676-1684; GObject instance memory is zeroed, so the sequence
number starts at 0 and all flags start FALSE, with an empty hint
table). -/
def initialGreeter : Greeter :=
  { authentication_user := none
    in_authentication := false
    is_authenticated := false
    authenticate_sequence_number := 0
    cancelling_authentication := false
    hints := [] }

/-- `g_hash_table_insert` on a string-keyed table: replaces the value of
an existing key, otherwise adds the pair. -/
def hashTableInsert (table : List (CStr × CStr)) (key value : CStr) :
    List (CStr × CStr) :=
  if table.any (fun p => p.1 = key) then
    table.map (fun p => if p.1 = key then (key, value) else p)
  else table ++ [(key, value)]

/-- greeter.c lines 273-281: the hint-reading loop of handle_connected.
The C loop runs `while (*offset < length)`; a malformed frame that
stops advancing the offset would loop forever in C, so the embedding
carries explicit fuel (`length` iterations is enough for every frame
the loop fully consumes, since each consumed pair advances the offset
by at least 8). -/
def connectedHintLoop (hints : List (CStr × CStr)) (buf : List Nat)
    (length : Nat) : Nat → Nat → List (CStr × CStr) × Nat
  | offset, 0 => (hints, offset)
  | offset, fuel + 1 =>
    if offset < length then
      let rn := read_string buf offset
      let rv := read_string buf rn.2
      connectedHintLoop (hashTableInsert hints rn.1 rv.1) buf length rv.2 fuel
    else (hints, offset)

/-- greeter.c lines 264-295: `handle_connected` reads the version
string, then inserts every remaining name/value pair into the hint
table, and finally emits the CONNECTED signal.  (The autologin timer
arming, lines 287-293, is event-loop I/O and not modelled.)  Each
emitted event is paired with the greeter state current at emission
time. -/
def handle_connected (g : Greeter) (length : Nat) (buf : List Nat)
    (offset : Nat) : Greeter × List (Event × Greeter) × Nat :=
  let rv := read_string buf offset
  let rh := connectedHintLoop g.hints buf length rv.2 length
  let g1 := { g with hints := rh.1 }
  (g1, [(Event.connected, g1)], rh.2)

/-- greeter.c lines 318-344: the per-message loop of
handle_prompt_authentication; one signal per recognised PAM style, no
signal for an unrecognised style (the C switch has no default arm). -/
def promptMessages (g : Greeter) (buf : List Nat) :
    Nat → Nat → List (Event × Greeter) × Nat
  | offset, 0 => ([], offset)
  | offset, n + 1 =>
    let rs := read_int buf offset
    let rm := read_string buf rs.2
    let evs : List (Event × Greeter) :=
      if rs.1 = PAM_PROMPT_ECHO_OFF then
        [(Event.showPrompt rm.1 PromptType.secret, g)]
      else if rs.1 = PAM_PROMPT_ECHO_ON then
        [(Event.showPrompt rm.1 PromptType.question, g)]
      else if rs.1 = PAM_ERROR_MSG then
        [(Event.showMessage rm.1 MessageType.error, g)]
      else if rs.1 = PAM_TEXT_INFO then
        [(Event.showMessage rm.1 MessageType.info, g)]
      else []
    let rest := promptMessages g buf rm.2 n
    (evs ++ rest.1, rest.2)

/-- greeter.c lines 297-345: `handle_prompt_authentication`.  Drops the
message when its sequence number is not the current one, or when a
cancel is pending; otherwise emits one signal per PAM message. -/
def handle_prompt_authentication (g : Greeter) (buf : List Nat)
    (offset : Nat) : Greeter × List (Event × Greeter) × Nat :=
  let rseq := read_int buf offset
  if rseq.1 ≠ g.authenticate_sequence_number then (g, [], rseq.2)
  else if g.cancelling_authentication then (g, [], rseq.2)
  else
    let rn := read_int buf rseq.2
    let rmsgs := promptMessages g buf rn.2 rn.1
    (g, rmsgs.1, rmsgs.2)

/-- greeter.c lines 347-371: `handle_end_authentication`.  Both integers
are read before the sequence check.  On a match: clear the cancelling
flag, set `is_authenticated = (return_code == 0)`, clear the recorded
username when not authenticated, emit AUTHENTICATION_COMPLETE (the
snapshot paired with the event is the state at emission time, in which
`in_authentication` is still unchanged), and only then clear
`in_authentication`. -/
def handle_end_authentication (g : Greeter) (buf : List Nat)
    (offset : Nat) : Greeter × List (Event × Greeter) × Nat :=
  let rseq := read_int buf offset
  let rret := read_int buf rseq.2
  if rseq.1 ≠ g.authenticate_sequence_number then (g, [], rret.2)
  else
    let g1 := { g with cancelling_authentication := false,
                       is_authenticated := rret.1 == 0 }
    let g2 := if g1.is_authenticated then g1
              else { g1 with authentication_user := none }
    ({ g2 with in_authentication := false },
     [(Event.authenticationComplete, g2)], rret.2)

/-- greeter.c lines 373-378: `handle_session_failed`. -/
def handle_session_failed (g : Greeter) : Greeter × List (Event × Greeter) × Nat :=
  (g, [(Event.sessionFailed, g)], 0)

/-- greeter.c lines 380-385: `handle_quit`. -/
def handle_quit (g : Greeter) : Greeter × List (Event × Greeter) × Nat :=
  (g, [(Event.quit, g)], 0)

/-- greeter.c lines 435-473: the dispatch part of `from_server_cb`,
applied to one complete frame (`read_packet` has already assembled
header plus payload into `buf`).  Reads the id and declared payload
length, then dispatches on the id; an unknown id only warns. -/
def processMessage (g : Greeter) (buf : List Nat) :
    Greeter × List (Event × Greeter) :=
  let rid := read_int buf 0
  let rlen := read_int buf rid.2
  let r :=
    if rid.1 = SERVER_MESSAGE_CONNECTED then
      handle_connected g rlen.1 buf rlen.2
    else if rid.1 = SERVER_MESSAGE_PROMPT_AUTHENTICATION then
      handle_prompt_authentication g buf rlen.2
    else if rid.1 = SERVER_MESSAGE_END_AUTHENTICATION then
      handle_end_authentication g buf rlen.2
    else if rid.1 = SERVER_MESSAGE_SESSION_FAILED then
      handle_session_failed g
    else if rid.1 = SERVER_MESSAGE_QUIT then
      handle_quit g
    else (g, [], 0)
  (r.1, r.2.1)

/-- greeter.c lines 1296-1319: `ldm_greeter_login`.  A NULL username is
replaced by the empty string, the cancelling flag is cleared, the
sequence number incremented (a `guint32`, hence modulo 2^32), the
in-progress flag set, and the LOGIN message written.  Returns the new
state and the wire bytes sent. -/
def ldm_greeter_login (g : Greeter) (username : Option CStr) :
    Greeter × List Nat :=
  let uname := username.getD []
  let g1 := { g with
    cancelling_authentication := false
    authenticate_sequence_number := (g.authenticate_sequence_number + 1) % 2 ^ 32
    in_authentication := true
    is_authenticated := false
    authentication_user := some uname }
  (g1, loginMessage g1.authenticate_sequence_number uname)

/-- greeter.c lines 1327-1331: `ldm_greeter_login_with_user_prompt` is
`ldm_greeter_login` with a NULL username. -/
def ldm_greeter_login_with_user_prompt (g : Greeter) : Greeter × List Nat :=
  ldm_greeter_login g none

/-- greeter.c lines 1339-1358: `ldm_greeter_login_as_guest`.  Same state
changes as a login except the recorded username becomes NULL, and the
LOGIN_AS_GUEST message carries only the sequence number. -/
def ldm_greeter_login_as_guest (g : Greeter) : Greeter × List Nat :=
  let g1 := { g with
    cancelling_authentication := false
    authenticate_sequence_number := (g.authenticate_sequence_number + 1) % 2 ^ 32
    in_authentication := true
    is_authenticated := false
    authentication_user := none }
  (g1, write_int MAX_MESSAGE_LENGTH
         (write_header MAX_MESSAGE_LENGTH [] GREETER_MESSAGE_LOGIN_AS_GUEST int_length)
         g1.authenticate_sequence_number)

/-- greeter.c lines 1390-1401: `ldm_greeter_cancel_authentication` sets
the cancelling flag and sends CANCEL_AUTHENTICATION with no payload; it
touches no other session state. -/
def ldm_greeter_cancel_authentication (g : Greeter) : Greeter × List Nat :=
  ({ g with cancelling_authentication := true },
   write_header MAX_MESSAGE_LENGTH [] GREETER_MESSAGE_CANCEL_AUTHENTICATION 0)

/-- greeter.c lines 1441-1446: `ldm_greeter_get_authentication_user`
returns the recorded username pointer (`none` models NULL). -/
def ldm_greeter_get_authentication_user (g : Greeter) : Option CStr :=
  g.authentication_user

/-- greeter.c lines 1411-1416: `ldm_greeter_get_in_authentication`. -/
def ldm_greeter_get_in_authentication (g : Greeter) : Bool :=
  g.in_authentication

/-- greeter.c lines 1426-1431: `ldm_greeter_get_is_authenticated`. -/
def ldm_greeter_get_is_authenticated (g : Greeter) : Bool :=
  g.is_authenticated

/-- A login or guest-login call, for reasoning about sequences of
authentication requests. -/
inductive AuthCall where
  | login (username : Option CStr)
  | asGuest
deriving DecidableEq, Repr

/-- Apply one authentication call to the greeter state. -/
def applyAuthCall (g : Greeter) : AuthCall → Greeter
  | AuthCall.login u => (ldm_greeter_login g u).1
  | AuthCall.asGuest => (ldm_greeter_login_as_guest g).1

/-- Apply a list of authentication calls in order. -/
def applyAuthCalls (g : Greeter) (calls : List AuthCall) : Greeter :=
  calls.foldl applyAuthCall g

/-- The sequence number carried on the wire by the n-th call (1-based)
of `calls`, starting from the freshly initialised greeter: both login
variants send the post-increment value of the counter. -/
def seqCarriedBy (calls : List AuthCall) (n : Nat) : Nat :=
  (applyAuthCalls initialGreeter (calls.take n)).authenticate_sequence_number

/-- C `strcmp` on byte strings: the sign of the difference of the first
differing bytes (unsigned chars); a proper prefix compares below via
its NUL terminator. -/
def strcmp : CStr → CStr → Int
  | [], [] => 0
  | [], y :: _ => 0 - (y : Int)
  | x :: _, [] => (x : Int)
  | x :: xs, y :: ys => if x = y then strcmp xs ys else (x : Int) - (y : Int)

/-- Modelled from the spec (`ldm_user_get_display_name` lives in
user.c, which is not under src/): the display name is the real name
when set, falling back to the account name. -/
def ldm_user_get_display_name (u : LdmUser) : CStr :=
  u.real_name.getD u.name

/-- greeter.c lines 573-578: `compare_user`, strcmp of display names. -/
def compare_user (a b : LdmUser) : Int :=
  strcmp (ldm_user_get_display_name a) (ldm_user_get_display_name b)

/-- GLib's `g_list_insert_sorted`: walk past elements that compare
strictly below the new one (`cmp new elem > 0`) and insert before the
first remaining element, or at the end. -/
def g_list_insert_sorted (cmp : LdmUser → LdmUser → Int) (x : LdmUser) :
    List LdmUser → List LdmUser
  | [] => [x]
  | y :: ys =>
    if cmp x y > 0 then y :: g_list_insert_sorted cmp x ys
    else x :: y :: ys

/-- Modelled from the spec (`ldm_user_update` lives in user.c, which is
not under src/): update the mutable fields in place — preserving the
object (here: its `objId` and name) — and report whether any observable
field differed. -/
def ldm_user_update (u : LdmUser) (real_name : Option CStr)
    (home_directory : CStr) (image : Option CStr) (logged_in : Bool) :
    LdmUser × Bool :=
  if u.real_name = real_name ∧ u.home_directory = home_directory ∧
     u.image = image ∧ u.logged_in = logged_in then (u, false)
  else ({ u with real_name := real_name, home_directory := home_directory,
                 image := image, logged_in := logged_in }, true)

/-- One candidate account record as built by the enumeration part of
load_users (greeter.c lines 619-673) after the minimum-UID,
hidden-shell and hidden-user filters and the GECOS/avatar resolution,
which depend on /etc/passwd, the configuration file and the filesystem
and are taken as the input of the synchronization. -/
structure PasswdRecord where
  name : CStr
  real_name : Option CStr
  home_directory : CStr
  image : Option CStr
deriving DecidableEq, Repr

/-- greeter.c line 673: the `ldm_user_new` call building the candidate
user object (logged_in is passed as FALSE); `objId` is the fresh
object's identity. -/
def buildUser (objId : Nat) (e : PasswdRecord) : LdmUser :=
  { objId := objId, name := e.name, real_name := e.real_name,
    home_directory := e.home_directory, image := e.image, logged_in := false }

/-- greeter.c lines 677-689: scan the cached list for a user with the
candidate's name; on the first match apply `ldm_user_update` in place.
Returns the updated cached list, the (updated) matched object, and
whether it changed, or `none` when no cached user has that name. -/
def updateExisting (cand : LdmUser) :
    List LdmUser → Option (List LdmUser × LdmUser × Bool)
  | [] => none
  | info :: rest =>
    if info.name = cand.name then
      let r := ldm_user_update info cand.real_name cand.home_directory
                 cand.image cand.logged_in
      some (r.1 :: rest, r.1, r.2)
    else
      match updateExisting cand rest with
      | some (rest1, u, c) => some (info :: rest1, u, c)
      | none => none

/-- greeter.c lines 619-697: the enumeration loop of `load_users`,
threading the cached list (mutated in place by updates), the fresh
object counter, and the `users`, `new_users` and `changed_users`
accumulators, each maintained with `g_list_insert_sorted compare_user`.
A candidate matching a cached user replaces the fresh object with the
updated cached one; an unmatched candidate is queued as new only when
`have_users` is already set (the baseline load is silent).  Returns
(cached list after updates, users, new_users, changed_users). -/
def loadUsersLoop (have_users : Bool) :
    List PasswdRecord → List LdmUser → Nat → List LdmUser → List LdmUser →
    List LdmUser → List LdmUser × List LdmUser × List LdmUser × List LdmUser
  | [], cached, _, users, newUsers, changedUsers =>
    (cached, users, newUsers, changedUsers)
  | e :: es, cached, objId, users, newUsers, changedUsers =>
    let cand := buildUser objId e
    match updateExisting cand cached with
    | some (cached1, u, changed) =>
      loadUsersLoop have_users es cached1 (objId + 1)
        (g_list_insert_sorted compare_user u users) newUsers
        (if changed then g_list_insert_sorted compare_user u changedUsers
         else changedUsers)
    | none =>
      loadUsersLoop have_users es cached (objId + 1)
        (g_list_insert_sorted compare_user cand users)
        (if have_users then g_list_insert_sorted compare_user cand newUsers
         else newUsers)
        changedUsers

/-- greeter.c lines 580-745: `load_users`.  After the enumeration loop
the new list replaces the cached one and the notifications fire in this
order: USER_ADDED over `new_users`, USER_CHANGED over `changed_users`,
then USER_REMOVED over the prior list restricted to objects (pointer
identity = `objId`) absent from the new list.  Takes the prior cached
list, the fresh-object counter and the candidate records; returns the
new cached list and the emitted events. -/
def load_users (have_users : Bool) (oldUsers : List LdmUser) (objId : Nat)
    (entries : List PasswdRecord) : List LdmUser × List Event :=
  let r := loadUsersLoop have_users entries oldUsers objId [] [] []
  let removed := r.1.filter (fun u => r.2.1.all (fun v => v.objId != u.objId))
  (r.2.1,
   r.2.2.1.map Event.userAdded ++ r.2.2.2.map Event.userChanged ++
   removed.map Event.userRemoved)

/-- Sortedness in the display-name order used by `compare_user`:
every adjacent pair compares at most 0. -/
def SortedByDisplayName (l : List LdmUser) : Prop :=
  List.Chain' (fun a b => compare_user a b ≤ 0) l

/-- C1: a PROMPT_AUTHENTICATION or END_AUTHENTICATION message whose
embedded sequence number differs from the session's current
authenticate_sequence_number leaves the whole greeter state unchanged
and emits no notification. -/
theorem stale_sequence_message_dropped (g : Greeter) (buf : List Nat)
    (offset s o1 : Nat) (hread : read_int buf offset = (s, o1))
    (hne : s ≠ g.authenticate_sequence_number) :
    (handle_prompt_authentication g buf offset).1 = g ∧
    (handle_prompt_authentication g buf offset).2.1 = [] ∧
    (handle_end_authentication g buf offset).1 = g ∧
    (handle_end_authentication g buf offset).2.1 = [] := by
  refine ⟨?_, ?_, ?_, ?_⟩ <;>
    simp [handle_prompt_authentication, handle_end_authentication, hread, hne]

theorem stale_sequence_message_dropped_witness :
    read_int [0, 0, 0, 5, 0, 0, 0, 0] 0 = (5, 4) ∧
    (5 : Nat) ≠ initialGreeter.authenticate_sequence_number ∧
    ((handle_prompt_authentication initialGreeter [0, 0, 0, 5, 0, 0, 0, 0] 0).1 = initialGreeter ∧
     (handle_prompt_authentication initialGreeter [0, 0, 0, 5, 0, 0, 0, 0] 0).2.1 = [] ∧
     (handle_end_authentication initialGreeter [0, 0, 0, 5, 0, 0, 0, 0] 0).1 = initialGreeter ∧
     (handle_end_authentication initialGreeter [0, 0, 0, 5, 0, 0, 0, 0] 0).2.1 = []) :=
  ⟨by decide, by decide,
   stale_sequence_message_dropped initialGreeter [0, 0, 0, 5, 0, 0, 0, 0] 0 5 4
     (by decide) (by decide)⟩

/-- C2: with a cancel pending (cancelling_authentication true during an
authentication), a PROMPT_AUTHENTICATION carrying the current sequence
number is dropped entirely (no state change, no notification), while an
END_AUTHENTICATION carrying the current sequence number still clears
in_authentication and emits AUTHENTICATION_COMPLETE. -/
theorem cancelling_drops_prompts_but_not_end (g : Greeter) (buf : List Nat)
    (offset s o1 : Nat) (hread : read_int buf offset = (s, o1))
    (hs : s = g.authenticate_sequence_number)
    (hc : g.cancelling_authentication = true)
    (hin : g.in_authentication = true) :
    handle_prompt_authentication g buf offset = (g, [], o1) ∧
    (handle_end_authentication g buf offset).1.in_authentication = false ∧
    (handle_end_authentication g buf offset).2.1.map Prod.fst =
      [Event.authenticationComplete] := by
  refine ⟨?_, ?_, ?_⟩ <;>
    simp [handle_prompt_authentication, handle_end_authentication, hread, hs, hc]

theorem cancelling_drops_prompts_but_not_end_witness :
    read_int [0, 0, 0, 3, 0, 0, 0, 7] 0 = (3, 4) ∧
    (3 : Nat) =
      (Greeter.mk (some [97]) true false 3 true []).authenticate_sequence_number ∧
    (Greeter.mk (some [97]) true false 3 true []).cancelling_authentication = true ∧
    (Greeter.mk (some [97]) true false 3 true []).in_authentication = true ∧
    (handle_prompt_authentication (Greeter.mk (some [97]) true false 3 true [])
        [0, 0, 0, 3, 0, 0, 0, 7] 0 =
      (Greeter.mk (some [97]) true false 3 true [], [], 4) ∧
     (handle_end_authentication (Greeter.mk (some [97]) true false 3 true [])
        [0, 0, 0, 3, 0, 0, 0, 7] 0).1.in_authentication = false ∧
     (handle_end_authentication (Greeter.mk (some [97]) true false 3 true [])
        [0, 0, 0, 3, 0, 0, 0, 7] 0).2.1.map Prod.fst =
       [Event.authenticationComplete]) :=
  ⟨by decide, by decide, by decide, by decide,
   cancelling_drops_prompts_but_not_end (Greeter.mk (some [97]) true false 3 true [])
     [0, 0, 0, 3, 0, 0, 0, 7] 0 3 4 (by decide) (by decide) (by decide) (by decide)⟩

/-- C3: an END_AUTHENTICATION with the current sequence number clears
the cancelling flag, sets is_authenticated exactly when the return code
is 0, clears the recorded username when not authenticated, emits
AUTHENTICATION_COMPLETE, and clears in_authentication only after that
notification: the state snapshot paired with the notification still has
in_authentication true, and the final state is that snapshot with
in_authentication set to false. -/
theorem end_authentication_matching_sequence (g : Greeter) (buf : List Nat)
    (offset s rc o1 o2 : Nat)
    (h1 : read_int buf offset = (s, o1)) (h2 : read_int buf o1 = (rc, o2))
    (hs : s = g.authenticate_sequence_number)
    (hin : g.in_authentication = true) :
    ∃ snap : Greeter,
      handle_end_authentication g buf offset =
        ({ snap with in_authentication := false },
         [(Event.authenticationComplete, snap)], o2) ∧
      snap.cancelling_authentication = false ∧
      (snap.is_authenticated = true ↔ rc = 0) ∧
      snap.authentication_user =
        (if rc = 0 then g.authentication_user else none) ∧
      snap.in_authentication = true := by
  by_cases hrc : rc = 0
  · refine ⟨{ g with
        cancelling_authentication := false
        is_authenticated := true }, ?_, rfl, by simp [hrc], by simp [hrc], hin⟩
    simp [handle_end_authentication, h1, h2, hs, hrc]
  · refine ⟨{ g with
        cancelling_authentication := false
        is_authenticated := false
        authentication_user := none }, ?_, rfl, by simp [hrc], by simp [hrc], hin⟩
    simp [handle_end_authentication, h1, h2, hs, hrc]

theorem end_authentication_matching_sequence_witness :
    read_int [0, 0, 0, 3, 0, 0, 0, 7] 0 = (3, 4) ∧
    read_int [0, 0, 0, 3, 0, 0, 0, 7] 4 = (7, 8) ∧
    (3 : Nat) =
      (Greeter.mk (some [97]) true false 3 true []).authenticate_sequence_number ∧
    (Greeter.mk (some [97]) true false 3 true []).in_authentication = true ∧
    (∃ snap : Greeter,
      handle_end_authentication (Greeter.mk (some [97]) true false 3 true [])
          [0, 0, 0, 3, 0, 0, 0, 7] 0 =
        ({ snap with in_authentication := false },
         [(Event.authenticationComplete, snap)], 8) ∧
      snap.cancelling_authentication = false ∧
      (snap.is_authenticated = true ↔ (7 : Nat) = 0) ∧
      snap.authentication_user =
        (if (7 : Nat) = 0 then
          (Greeter.mk (some [97]) true false 3 true []).authentication_user
         else none) ∧
      snap.in_authentication = true) :=
  ⟨by decide, by decide, by decide, by decide,
   end_authentication_matching_sequence (Greeter.mk (some [97]) true false 3 true [])
     [0, 0, 0, 3, 0, 0, 0, 7] 0 3 7 4 8 (by decide) (by decide) (by decide) (by decide)⟩

/-- C8: decoding fails closed — an integer read with fewer than four
bytes remaining yields 0 without advancing the offset, and a string
read whose declared length exceeds the remaining bytes yields the empty
string, stopping right after the length field; neither accesses bytes
beyond those received (the model reads only from the received list) and
neither is an error, both simply return a value. -/
theorem truncated_reads_fail_closed (buf : List Nat) (o1 o2 len p : Nat)
    (ha : buf.length - o1 < int_length)
    (hb : read_int buf o2 = (len, p)) (hc : buf.length - p < len) :
    read_int buf o1 = (0, o1) ∧ read_string buf o2 = ([], p) := by
  constructor
  · simp [read_int, ha]
  · simp [read_string, hb, hc]

theorem truncated_reads_fail_closed_witness :
    ([0, 0, 0, 5, 1, 1] : List Nat).length - 3 < int_length ∧
    read_int [0, 0, 0, 5, 1, 1] 0 = (5, 4) ∧
    ([0, 0, 0, 5, 1, 1] : List Nat).length - 4 < 5 ∧
    (read_int [0, 0, 0, 5, 1, 1] 3 = (0, 3) ∧
     read_string [0, 0, 0, 5, 1, 1] 0 = ([], 4)) :=
  ⟨by decide, by decide, by decide,
   truncated_reads_fail_closed [0, 0, 0, 5, 1, 1] 3 0 5 4
     (by decide) (by decide) (by decide)⟩

/-- C10: after a login with a NULL username (also via
login_with_user_prompt) the recorded authentication user is the empty
string, not NULL; after a guest login it is NULL even though an
authentication is then in progress — so a NULL result from
ldm_greeter_get_authentication_user does not imply that no
authentication is in progress. -/
theorem null_username_becomes_empty_guest_stays_null (g : Greeter) :
    ldm_greeter_get_authentication_user (ldm_greeter_login g none).1 = some [] ∧
    ldm_greeter_get_authentication_user
      (ldm_greeter_login_with_user_prompt g).1 = some [] ∧
    ldm_greeter_get_authentication_user (ldm_greeter_login_as_guest g).1 = none ∧
    ldm_greeter_get_in_authentication (ldm_greeter_login_as_guest g).1 = true :=
  ⟨rfl, rfl, rfl, rfl⟩

theorem handle_prompt_authentication_fst (g : Greeter) (buf : List Nat)
    (offset : Nat) : (handle_prompt_authentication g buf offset).1 = g := by
  simp only [handle_prompt_authentication]
  split
  · rfl
  · split <;> rfl

theorem handle_end_authentication_hints (g : Greeter) (buf : List Nat)
    (offset : Nat) : (handle_end_authentication g buf offset).1.hints = g.hints := by
  simp only [handle_end_authentication]
  split
  · rfl
  · split <;> rfl

/-- C6 counterexample: a reachable state whose hints were populated by
a first CONNECTED message (key "a" mapped to "b") has that entry
overwritten when a second CONNECTED message carrying "a"="c" is
processed — the hint table is mutated by a later message. -/
theorem second_connected_mutates_hints_counterexample :
    (processMessage initialGreeter
      [0, 0, 0, 0, 0, 0, 0, 14, 0, 0, 0, 0, 0, 0, 0, 1, 97, 0, 0, 0, 1, 98]).1.hints
      = [([97], [98])] ∧
    (processMessage
      (processMessage initialGreeter
        [0, 0, 0, 0, 0, 0, 0, 14, 0, 0, 0, 0, 0, 0, 0, 1, 97, 0, 0, 0, 1, 98]).1
      [0, 0, 0, 0, 0, 0, 0, 14, 0, 0, 0, 0, 0, 0, 0, 1, 97, 0, 0, 0, 1, 99]).1.hints
      = [([97], [99])] ∧
    ([([97], [99])] : List (CStr × CStr)) ≠ [([97], [98])] := by
  refine ⟨by decide, by decide, by decide⟩

/-- C6 (amended): after the hint table is populated, every later server
message other than another CONNECTED message leaves the hints
unchanged; only a further CONNECTED message can mutate them (the
handler re-runs its insertion loop unguarded). -/
theorem non_connected_messages_preserve_hints (g : Greeter) (buf : List Nat)
    (h : (read_int buf 0).1 ≠ SERVER_MESSAGE_CONNECTED) :
    (processMessage g buf).1.hints = g.hints := by
  simp only [processMessage]
  rw [if_neg h]
  by_cases h2 : (read_int buf 0).1 = SERVER_MESSAGE_PROMPT_AUTHENTICATION
  · rw [if_pos h2, handle_prompt_authentication_fst]
  rw [if_neg h2]
  by_cases h3 : (read_int buf 0).1 = SERVER_MESSAGE_END_AUTHENTICATION
  · rw [if_pos h3, handle_end_authentication_hints]
  rw [if_neg h3]
  by_cases h4 : (read_int buf 0).1 = SERVER_MESSAGE_SESSION_FAILED
  · rw [if_pos h4]; rfl
  rw [if_neg h4]
  by_cases h5 : (read_int buf 0).1 = SERVER_MESSAGE_QUIT
  · rw [if_pos h5]; rfl
  rw [if_neg h5]

theorem non_connected_messages_preserve_hints_witness :
    (read_int [0, 0, 0, 1, 0, 0, 0, 0] 0).1 ≠ SERVER_MESSAGE_CONNECTED ∧
    (processMessage (Greeter.mk none false false 0 false [([97], [98])])
      [0, 0, 0, 1, 0, 0, 0, 0]).1.hints =
      (Greeter.mk none false false 0 false [([97], [98])]).hints :=
  ⟨by decide,
   non_connected_messages_preserve_hints
     (Greeter.mk none false false 0 false [([97], [98])])
     [0, 0, 0, 1, 0, 0, 0, 0] (by decide)⟩

theorem applyAuthCall_seq (g : Greeter) (c : AuthCall) :
    (applyAuthCall g c).authenticate_sequence_number =
      (g.authenticate_sequence_number + 1) % 2 ^ 32 := by
  cases c <;> rfl

theorem applyAuthCalls_seq (calls : List AuthCall) : ∀ g : Greeter,
    g.authenticate_sequence_number < 2 ^ 32 →
    (applyAuthCalls g calls).authenticate_sequence_number =
      (g.authenticate_sequence_number + calls.length) % 2 ^ 32 := by
  induction calls with
  | nil =>
    intro g hg
    simpa [applyAuthCalls] using (Nat.mod_eq_of_lt hg).symm
  | cons c cs ih =>
    intro g hg
    have step : applyAuthCalls g (c :: cs) = applyAuthCalls (applyAuthCall g c) cs := rfl
    rw [step, ih (applyAuthCall g c) (by rw [applyAuthCall_seq]; exact Nat.mod_lt _ (by positivity)),
        applyAuthCall_seq]
    rw [Nat.mod_add_mod]
    simp [List.length_cons]
    ring_nf

theorem seqCarriedBy_eq (calls : List AuthCall) (n : Nat)
    (hn : n ≤ calls.length) : seqCarriedBy calls n = n % 2 ^ 32 := by
  unfold seqCarriedBy
  rw [applyAuthCalls_seq (calls.take n) initialGreeter (by simp [initialGreeter])]
  simp [initialGreeter, List.length_take, Nat.min_eq_left hn]

/-- C7 counterexample: the sequence counter is a 32-bit unsigned
integer, so after 2^32 login-as-guest calls it wraps to 0, which is not
greater than the number 1 carried by the first call — two calls can
share a sequence number once the counter overflows. -/
theorem sequence_number_wrap_counterexample :
    (1 : Nat) < 2 ^ 32 ∧
    2 ^ 32 ≤ (List.replicate (2 ^ 32) AuthCall.asGuest).length ∧
    ¬ seqCarriedBy (List.replicate (2 ^ 32) AuthCall.asGuest) 1 <
      seqCarriedBy (List.replicate (2 ^ 32) AuthCall.asGuest) (2 ^ 32) := by
  refine ⟨by norm_num, (List.length_replicate (2 ^ 32) AuthCall.asGuest).ge, ?_⟩
  rw [seqCarriedBy_eq _ 1
        (Nat.le_trans (by norm_num) (List.length_replicate (2 ^ 32) AuthCall.asGuest).ge),
      seqCarriedBy_eq _ (2 ^ 32) (List.length_replicate (2 ^ 32) AuthCall.asGuest).ge]
  omega

/-- C7 (amended): for any run of fewer than 2^32 login / login-as-guest
calls (so the 32-bit counter does not wrap), the sequence number
carried by a later call is strictly greater than the one carried by any
earlier call, so no two such calls share a number. -/
theorem login_sequence_numbers_strictly_increase (calls : List AuthCall)
    (i j : Nat) (hij : i < j) (hj : j ≤ calls.length) (hwrap : j < 2 ^ 32) :
    seqCarriedBy calls i < seqCarriedBy calls j := by
  rw [seqCarriedBy_eq calls i (Nat.le_of_lt (Nat.lt_of_lt_of_le hij hj)),
      seqCarriedBy_eq calls j hj,
      Nat.mod_eq_of_lt (Nat.lt_trans hij hwrap), Nat.mod_eq_of_lt hwrap]
  exact hij

theorem login_sequence_numbers_strictly_increase_witness :
    (1 : Nat) < 2 ∧
    2 ≤ ([AuthCall.asGuest, AuthCall.login (some [97])] : List AuthCall).length ∧
    (2 : Nat) < 2 ^ 32 ∧
    seqCarriedBy [AuthCall.asGuest, AuthCall.login (some [97])] 1 <
      seqCarriedBy [AuthCall.asGuest, AuthCall.login (some [97])] 2 :=
  ⟨by decide, by decide, by norm_num,
   login_sequence_numbers_strictly_increase
     [AuthCall.asGuest, AuthCall.login (some [97])] 1 2
     (by decide) (by decide) (by norm_num)⟩

theorem land_255_eq_mod (x : Nat) : x &&& 255 = x % 256 := by
  have h := Nat.and_pow_two_sub_one_eq_mod x 8
  norm_num at h
  exact h

theorem lor_eq_add_of_lt {n a b : Nat} (hb : b < 2 ^ n) :
    (a * 2 ^ n) ||| b = a * 2 ^ n + b := by
  rw [Nat.mul_comm]
  exact (Nat.mul_add_lt_is_or hb a).symm

theorem byte_recompose (v : Nat) (hv : v < 2 ^ 32) :
    ((v >>> 24) % 256) <<< 24 ||| ((v >>> 16) &&& 255) <<< 16 |||
      ((v >>> 8) &&& 255) <<< 8 ||| (v &&& 255) = v := by
  rw [land_255_eq_mod, land_255_eq_mod, land_255_eq_mod,
      Nat.shiftRight_eq_div_pow, Nat.shiftRight_eq_div_pow, Nat.shiftRight_eq_div_pow,
      Nat.shiftLeft_eq, Nat.shiftLeft_eq, Nat.shiftLeft_eq]
  have hm1 : v / 2 ^ 16 % 256 < 256 := Nat.mod_lt _ (by norm_num)
  have hm2 : v / 2 ^ 8 % 256 < 256 := Nat.mod_lt _ (by norm_num)
  have hm3 : v % 256 < 256 := Nat.mod_lt _ (by norm_num)
  have hb1 : v / 2 ^ 16 % 256 * 2 ^ 16 < 2 ^ 24 := by
    calc v / 2 ^ 16 % 256 * 2 ^ 16 < 256 * 2 ^ 16 :=
          (Nat.mul_lt_mul_right (by norm_num)).mpr hm1
    _ = 2 ^ 24 := by norm_num
  have hb2 : v / 2 ^ 8 % 256 * 2 ^ 8 < 2 ^ 16 := by
    calc v / 2 ^ 8 % 256 * 2 ^ 8 < 256 * 2 ^ 8 :=
          (Nat.mul_lt_mul_right (by norm_num)).mpr hm2
    _ = 2 ^ 16 := by norm_num
  have hb3 : v % 256 < 2 ^ 8 := by norm_num at hm3 ⊢; omega
  rw [lor_eq_add_of_lt hb1]
  have e2 : v / 2 ^ 24 % 256 * 2 ^ 24 + v / 2 ^ 16 % 256 * 2 ^ 16
      = (v / 2 ^ 24 % 256 * 2 ^ 8 + v / 2 ^ 16 % 256) * 2 ^ 16 := by ring
  rw [e2, lor_eq_add_of_lt hb2]
  have e3 : (v / 2 ^ 24 % 256 * 2 ^ 8 + v / 2 ^ 16 % 256) * 2 ^ 16 +
        v / 2 ^ 8 % 256 * 2 ^ 8
      = (v / 2 ^ 24 % 256 * 2 ^ 16 + v / 2 ^ 16 % 256 * 2 ^ 8 +
         v / 2 ^ 8 % 256) * 2 ^ 8 := by ring
  rw [e3, lor_eq_add_of_lt hb3]
  have p8 : (2 : Nat) ^ 8 = 256 := by norm_num
  have p16 : (2 : Nat) ^ 16 = 65536 := by norm_num
  have p24 : (2 : Nat) ^ 24 = 16777216 := by norm_num
  have p32 : (2 : Nat) ^ 32 = 4294967296 := by norm_num
  rw [p8, p16, p24] at *
  rw [p32] at hv
  omega

theorem length_intBytes (v : Nat) : (intBytes v).length = 4 := rfl

theorem write_int_eq (bl : Nat) (acc : List Nat) (v : Nat)
    (h : acc.length + 4 < bl) : write_int bl acc v = acc ++ intBytes v := by
  unfold write_int
  rw [if_neg (by omega)]

theorem read_int_at (buf pre rest : List Nat) (v off : Nat) (hv : v < 2 ^ 32)
    (hoff : off = pre.length) (hbuf : buf = pre ++ (intBytes v ++ rest)) :
    read_int buf off = (v, off + 4) := by
  subst hoff
  subst hbuf
  have g0 : (pre ++ (intBytes v ++ rest)).getD pre.length 0 = (v >>> 24) % 256 := by
    rw [List.getD_append_right _ _ _ _ (Nat.le_refl _)]
    simp [intBytes]
  have g1 : (pre ++ (intBytes v ++ rest)).getD (pre.length + 1) 0 =
      (v >>> 16) &&& 255 := by
    rw [List.getD_append_right _ _ _ _ (Nat.le_add_right _ _)]
    simp [intBytes]
  have g2 : (pre ++ (intBytes v ++ rest)).getD (pre.length + 2) 0 =
      (v >>> 8) &&& 255 := by
    rw [List.getD_append_right _ _ _ _ (Nat.le_add_right _ _)]
    simp [intBytes]
  have g3 : (pre ++ (intBytes v ++ rest)).getD (pre.length + 3) 0 = v &&& 255 := by
    rw [List.getD_append_right _ _ _ _ (Nat.le_add_right _ _)]
    simp [intBytes]
  unfold read_int int_length
  rw [if_neg (by simp [intBytes]), g0, g1, g2, g3, byte_recompose v hv]

theorem read_string_at (buf pre : List Nat) (s : CStr) (off : Nat)
    (hs : s.length < 2 ^ 32) (hoff : off = pre.length)
    (hbuf : buf = pre ++ (intBytes s.length ++ s)) :
    read_string buf off = (s, off + 4 + s.length) := by
  have h1 : read_int buf off = (s.length, off + 4) :=
    read_int_at buf pre s s.length off hs hoff hbuf
  subst hoff
  have hd : (pre ++ (intBytes s.length ++ s)).drop (pre.length + 4) = s := by
    rw [← List.append_assoc]
    exact List.drop_left' (by simp [intBytes])
  subst hbuf
  simp only [read_string, h1]
  rw [if_neg (by simp [intBytes]; omega), hd, List.take_length]

theorem loginMessage_eq (sequence_number : Nat) (username : CStr)
    (hU : username.length + 16 < MAX_MESSAGE_LENGTH) :
    loginMessage sequence_number username =
      intBytes GREETER_MESSAGE_LOGIN ++
      intBytes (int_length + string_length username) ++
      intBytes sequence_number ++ intBytes username.length ++ username := by
  unfold MAX_MESSAGE_LENGTH at hU
  have e1 : write_int 1024 ([] : List Nat) GREETER_MESSAGE_LOGIN =
      intBytes GREETER_MESSAGE_LOGIN := by
    rw [write_int_eq 1024 [] _ (by simp), List.nil_append]
  have e2 : write_int 1024 (intBytes GREETER_MESSAGE_LOGIN)
      (int_length + string_length username) =
      intBytes GREETER_MESSAGE_LOGIN ++
        intBytes (int_length + string_length username) :=
    write_int_eq 1024 _ _ (by simp [length_intBytes])
  have e3 : write_int 1024 (intBytes GREETER_MESSAGE_LOGIN ++
        intBytes (int_length + string_length username)) sequence_number =
      intBytes GREETER_MESSAGE_LOGIN ++
        intBytes (int_length + string_length username) ++
        intBytes sequence_number :=
    write_int_eq 1024 _ _ (by simp [length_intBytes])
  have e4 : write_int 1024 (intBytes GREETER_MESSAGE_LOGIN ++
        intBytes (int_length + string_length username) ++
        intBytes sequence_number) username.length =
      intBytes GREETER_MESSAGE_LOGIN ++
        intBytes (int_length + string_length username) ++
        intBytes sequence_number ++ intBytes username.length :=
    write_int_eq 1024 _ _ (by simp [length_intBytes])
  simp only [loginMessage, write_header, MAX_MESSAGE_LENGTH, e1, e2, e3, e4,
    write_string]
  rw [if_neg (by simp [length_intBytes]; omega)]

/-- C9 (amended): for every 32-bit sequence number N and every username
U short enough not to be truncated by the 1024-byte outgoing buffer
(U.length + 16 < MAX_MESSAGE_LENGTH), encoding a LOGIN message and
decoding those same bytes — header id and declared length, then the
payload integer and string — yields back the LOGIN id, the declared
payload length, and exactly N and U. -/
theorem login_roundtrip (sequence_number : Nat) (username : CStr)
    (hN : sequence_number < 2 ^ 32)
    (hU : username.length + 16 < MAX_MESSAGE_LENGTH) :
    decodeLogin (loginMessage sequence_number username) =
      (GREETER_MESSAGE_LOGIN, int_length + string_length username,
       sequence_number, username) := by
  have hmsg := loginMessage_eq sequence_number username hU
  unfold MAX_MESSAGE_LENGTH at hU
  have hp32 : (2 : Nat) ^ 32 = 4294967296 := by norm_num
  have hUlen : username.length < 2 ^ 32 := by omega
  have hL : int_length + string_length username < 2 ^ 32 := by
    unfold string_length int_length
    omega
  have hG : GREETER_MESSAGE_LOGIN < 2 ^ 32 := by norm_num [GREETER_MESSAGE_LOGIN]
  have r1 : read_int (loginMessage sequence_number username) 0 =
      (GREETER_MESSAGE_LOGIN, 4) :=
    read_int_at (loginMessage sequence_number username) []
      (intBytes (int_length + string_length username) ++
        (intBytes sequence_number ++ (intBytes username.length ++ username)))
      GREETER_MESSAGE_LOGIN 0 hG rfl (by rw [hmsg]; rfl)
  have r2 : read_int (loginMessage sequence_number username) 4 =
      (int_length + string_length username, 8) :=
    read_int_at (loginMessage sequence_number username)
      (intBytes GREETER_MESSAGE_LOGIN)
      (intBytes sequence_number ++ (intBytes username.length ++ username))
      (int_length + string_length username) 4 hL rfl (by rw [hmsg]; rfl)
  have r3 : read_int (loginMessage sequence_number username) 8 =
      (sequence_number, 12) :=
    read_int_at (loginMessage sequence_number username)
      (intBytes GREETER_MESSAGE_LOGIN ++
        intBytes (int_length + string_length username))
      (intBytes username.length ++ username)
      sequence_number 8 hN rfl (by rw [hmsg]; rfl)
  have r4 : read_string (loginMessage sequence_number username) 12 =
      (username, 12 + 4 + username.length) :=
    read_string_at (loginMessage sequence_number username)
      (intBytes GREETER_MESSAGE_LOGIN ++
        intBytes (int_length + string_length username) ++
        intBytes sequence_number)
      username 12 hUlen rfl (by rw [hmsg]; rfl)
  clear hmsg hU
  revert r1 r2 r3 r4
  generalize loginMessage sequence_number username = M
  intro r1 r2 r3 r4
  have c1 : (decodeLogin M).1 = GREETER_MESSAGE_LOGIN := congrArg Prod.fst r1
  have c2 : (decodeLogin M).2.1 = int_length + string_length username := by
    show (read_int M (read_int M 0).2).1 = int_length + string_length username
    rw [r1]
    show (read_int M 4).1 = int_length + string_length username
    rw [r2]
  have c3 : (decodeLogin M).2.2.1 = sequence_number := by
    show (read_int M (read_int M (read_int M 0).2).2).1 = sequence_number
    rw [r1]
    show (read_int M (read_int M 4).2).1 = sequence_number
    rw [r2]
    show (read_int M 8).1 = sequence_number
    rw [r3]
  have c4 : (decodeLogin M).2.2.2 = username := by
    show (read_string M
      (read_int M (read_int M (read_int M 0).2).2).2).1 = username
    rw [r1]
    show (read_string M (read_int M (read_int M 4).2).2).1 = username
    rw [r2]
    show (read_string M (read_int M 8).2).1 = username
    rw [r3]
    show (read_string M 12).1 = username
    rw [r4]
  exact Prod.ext c1 (Prod.ext c2 (Prod.ext c3 c4))

theorem login_roundtrip_witness :
    (258 : Nat) < 2 ^ 32 ∧
    ([104, 105] : CStr).length + 16 < MAX_MESSAGE_LENGTH ∧
    decodeLogin (loginMessage 258 [104, 105]) =
      (GREETER_MESSAGE_LOGIN, int_length + string_length [104, 105],
       258, [104, 105]) :=
  ⟨by norm_num, by decide,
   login_roundtrip 258 [104, 105] (by norm_num) (by decide)⟩

/-- C9 counterexample: with the 1024-byte outgoing buffer, a LOGIN
message for a 1008-byte username is truncated — `write_string` skips
the byte copy because 16 + 1008 reaches the buffer limit — so decoding
the produced bytes yields the empty username back, not the original
1008-byte one (the sequence number 5 and the declared length do
survive). -/
theorem login_roundtrip_truncation_counterexample :
    decodeLogin (loginMessage 5 (List.replicate 1008 97)) =
      (GREETER_MESSAGE_LOGIN, 1016, 5, ([] : CStr)) ∧
    ([] : CStr) ≠ List.replicate 1008 97 := by
  constructor
  · have hlen : (List.replicate 1008 (97 : Nat)).length = 1008 :=
      List.length_replicate _ _
    have hmsg : loginMessage 5 (List.replicate 1008 97) =
        intBytes 1 ++ intBytes 1016 ++ intBytes 5 ++ intBytes 1008 := by
      unfold loginMessage write_string write_header string_length int_length
        MAX_MESSAGE_LENGTH GREETER_MESSAGE_LOGIN
      rw [hlen]
      decide
    rw [hmsg]
    decide
  · intro h
    have h2 := congrArg List.length h
    rw [List.length_replicate] at h2
    exact absurd h2 (by norm_num)

theorem strcmp_neg (a : CStr) : ∀ b : CStr, strcmp a b = -strcmp b a := by
  induction a with
  | nil =>
    intro b
    cases b <;> simp [strcmp]
  | cons x xs ih =>
    intro b
    cases b with
    | nil => simp [strcmp]
    | cons y ys =>
      by_cases hxy : x = y
      · subst hxy
        simp [strcmp, ih ys]
      · have hyx : ¬ y = x := fun h => hxy h.symm
        simp [strcmp, hxy, hyx]

theorem compare_user_swap {a b : LdmUser} (h : compare_user a b > 0) :
    compare_user b a ≤ 0 := by
  unfold compare_user at *
  rw [strcmp_neg]
  omega

theorem gins_head (x : LdmUser) (l : List LdmUser) :
    (g_list_insert_sorted compare_user x l).head? = some x ∨
    (g_list_insert_sorted compare_user x l).head? = l.head? := by
  cases l with
  | nil => left; rfl
  | cons y ys =>
    unfold g_list_insert_sorted
    by_cases h : compare_user x y > 0
    · rw [if_pos h]; right; rfl
    · rw [if_neg h]; left; rfl

theorem gins_chain (x : LdmUser) :
    ∀ l : List LdmUser, List.Chain' (fun a b => compare_user a b ≤ 0) l →
    List.Chain' (fun a b => compare_user a b ≤ 0)
      (g_list_insert_sorted compare_user x l)
  | [], _ => List.chain'_singleton x
  | y :: ys, h => by
    unfold g_list_insert_sorted
    by_cases hxy : compare_user x y > 0
    · rw [if_pos hxy]
      rw [List.chain'_cons']
      constructor
      · intro b hb
        rcases gins_head x ys with h1 | h1
        · rw [h1] at hb
          simp at hb
          subst hb
          exact compare_user_swap hxy
        · rw [h1] at hb
          exact (List.chain'_cons'.mp h).1 b hb
      · exact gins_chain x ys (List.chain'_cons'.mp h).2
    · rw [if_neg hxy]
      rw [List.chain'_cons']
      refine ⟨fun b hb => ?_, h⟩
      simp at hb
      subst hb
      omega

theorem ldm_user_update_objId (u : LdmUser) (rn : Option CStr) (hd : CStr)
    (im : Option CStr) (li : Bool) :
    (ldm_user_update u rn hd im li).1.objId = u.objId := by
  unfold ldm_user_update
  split <;> rfl

theorem updateExisting_objIds (cand : LdmUser) :
    ∀ (l l1 : List LdmUser) (u : LdmUser) (c : Bool),
    updateExisting cand l = some (l1, u, c) →
    l1.map LdmUser.objId = l.map LdmUser.objId := by
  intro l
  induction l with
  | nil =>
    intro l1 u c h
    simp [updateExisting] at h
  | cons info rest ih =>
    intro l1 u c h
    simp only [updateExisting] at h
    by_cases hn : info.name = cand.name
    · rw [if_pos hn] at h
      simp only [Option.some.injEq, Prod.mk.injEq] at h
      obtain ⟨h1, _, _⟩ := h
      subst h1
      simp [ldm_user_update_objId]
    · rw [if_neg hn] at h
      cases hrec : updateExisting cand rest with
      | none =>
        rw [hrec] at h
        simp at h
      | some r =>
        obtain ⟨rest1, u1, c1⟩ := r
        rw [hrec] at h
        simp only [Option.some.injEq, Prod.mk.injEq] at h
        obtain ⟨h1, _, _⟩ := h
        subst h1
        simp only [List.map_cons]
        rw [ih rest1 u1 c1 hrec]

theorem loadUsersLoop_spec (have_users : Bool) :
    ∀ (es : List PasswdRecord) (cached : List LdmUser) (objId : Nat)
      (users newUsers changedUsers : List LdmUser),
    List.Chain' (fun a b => compare_user a b ≤ 0) newUsers →
    List.Chain' (fun a b => compare_user a b ≤ 0) changedUsers →
    List.Chain' (fun a b => compare_user a b ≤ 0)
      (loadUsersLoop have_users es cached objId users newUsers changedUsers).2.2.1 ∧
    List.Chain' (fun a b => compare_user a b ≤ 0)
      (loadUsersLoop have_users es cached objId users newUsers changedUsers).2.2.2 ∧
    (loadUsersLoop have_users es cached objId users newUsers
        changedUsers).1.map LdmUser.objId = cached.map LdmUser.objId ∧
    (have_users = false →
      (loadUsersLoop have_users es cached objId users newUsers
        changedUsers).2.2.1 = newUsers) := by
  intro es
  induction es with
  | nil =>
    intro cached objId users nu cu hnu hcu
    exact ⟨hnu, hcu, rfl, fun _ => rfl⟩
  | cons e es ih =>
    intro cached objId users nu cu hnu hcu
    simp only [loadUsersLoop]
    cases hupd : updateExisting (buildUser objId e) cached with
    | some r =>
      obtain ⟨cached1, u, changed⟩ := r
      have hcu2 : List.Chain' (fun a b => compare_user a b ≤ 0)
          (if changed then g_list_insert_sorted compare_user u cu else cu) := by
        cases changed with
        | false => simpa using hcu
        | true => simpa using gins_chain u cu hcu
      obtain ⟨ha, hb, hc, hd⟩ := ih cached1 (objId + 1)
        (g_list_insert_sorted compare_user u users) nu
        (if changed then g_list_insert_sorted compare_user u cu else cu)
        hnu hcu2
      refine ⟨ha, hb, ?_, hd⟩
      rw [hc]
      exact updateExisting_objIds (buildUser objId e) cached cached1 u changed hupd
    | none =>
      have hnu2 : List.Chain' (fun a b => compare_user a b ≤ 0)
          (if have_users then
            g_list_insert_sorted compare_user (buildUser objId e) nu else nu) := by
        cases have_users with
        | false => simpa using hnu
        | true => simpa using gins_chain (buildUser objId e) nu hnu
      obtain ⟨ha, hb, hc, hd⟩ := ih cached (objId + 1)
        (g_list_insert_sorted compare_user (buildUser objId e) users)
        (if have_users then
          g_list_insert_sorted compare_user (buildUser objId e) nu else nu)
        cu hnu2 hcu
      refine ⟨ha, hb, hc, fun hf => ?_⟩
      rw [hd hf, hf]
      simp

/-- C4: the notifications of one user-database synchronization run are
grouped and ordered as all USER_ADDED (sorted by display-name order),
then all USER_CHANGED (same ordering), then all USER_REMOVED (in the
order of the prior cached list); the baseline load (have_users still
false) emits no USER_ADDED at all.  The hypotheses scope the statement
to the inputs on which the pure embedding is faithful to the C: account
names are unique (the database key), distinct user objects have
distinct identities, and fresh identities do not collide with cached
ones. -/
theorem user_sync_notification_order (have_users : Bool)
    (oldUsers : List LdmUser) (objId : Nat) (entries : List PasswdRecord)
    (hnames : (entries.map PasswdRecord.name).Nodup)
    (hids : (oldUsers.map LdmUser.objId).Nodup)
    (hfresh : ∀ u ∈ oldUsers, u.objId < objId) :
    ∃ adds chgs rems : List LdmUser,
      (load_users have_users oldUsers objId entries).2 =
        adds.map Event.userAdded ++ chgs.map Event.userChanged ++
        rems.map Event.userRemoved ∧
      SortedByDisplayName adds ∧ SortedByDisplayName chgs ∧
      List.Sublist (rems.map LdmUser.objId) (oldUsers.map LdmUser.objId) ∧
      (have_users = false → adds = []) := by
  obtain ⟨ha, hb, hc, hd⟩ := loadUsersLoop_spec have_users entries oldUsers
    objId [] [] [] List.chain'_nil List.chain'_nil
  refine ⟨(loadUsersLoop have_users entries oldUsers objId [] [] []).2.2.1,
    (loadUsersLoop have_users entries oldUsers objId [] [] []).2.2.2,
    (loadUsersLoop have_users entries oldUsers objId [] [] []).1.filter
      (fun u => (loadUsersLoop have_users entries oldUsers objId
        [] [] []).2.1.all (fun v => v.objId != u.objId)),
    rfl, ha, hb, ?_, hd⟩
  rw [← hc]
  exact List.Sublist.map LdmUser.objId (List.filter_sublist _)

theorem user_sync_notification_order_witness :
    ((([⟨[97], none, [104], none⟩] : List PasswdRecord)).map
      PasswdRecord.name).Nodup ∧
    ((([] : List LdmUser)).map LdmUser.objId).Nodup ∧
    (∀ u ∈ ([] : List LdmUser), u.objId < 0) ∧
    (∃ adds chgs rems : List LdmUser,
      (load_users true [] 0 [⟨[97], none, [104], none⟩]).2 =
        adds.map Event.userAdded ++ chgs.map Event.userChanged ++
        rems.map Event.userRemoved ∧
      SortedByDisplayName adds ∧ SortedByDisplayName chgs ∧
      List.Sublist (rems.map LdmUser.objId)
        ((([] : List LdmUser)).map LdmUser.objId) ∧
      (true = false → adds = [])) :=
  ⟨by decide, by decide, by simp,
   user_sync_notification_order true [] 0 [⟨[97], none, [104], none⟩]
     (by decide) (by decide) (by simp)⟩

/-- C5 counterexample: in the concrete scenario (baseline accounts a,
b, c; then a with its home directory changed, c removed, d added) the
baseline load emits nothing and the second load emits exactly three
notifications — but in the order USER_ADDED, USER_CHANGED,
USER_REMOVED, not the claimed user-changed-first order. -/
theorem sync_scenario_order_counterexample :
    (load_users false [] 0
      [⟨[97], none, [104, 97], none⟩, ⟨[98], none, [104, 98], none⟩,
       ⟨[99], none, [104, 99], none⟩]).2 = [] ∧
    (load_users true
      (load_users false [] 0
        [⟨[97], none, [104, 97], none⟩, ⟨[98], none, [104, 98], none⟩,
         ⟨[99], none, [104, 99], none⟩]).1 3
      [⟨[97], none, [104, 97, 50], none⟩, ⟨[98], none, [104, 98], none⟩,
       ⟨[100], none, [104, 100], none⟩]).2 =
      [Event.userAdded ⟨5, [100], none, [104, 100], none, false⟩,
       Event.userChanged ⟨0, [97], none, [104, 97, 50], none, false⟩,
       Event.userRemoved ⟨2, [99], none, [104, 99], none, false⟩] ∧
    ([Event.userAdded ⟨5, [100], none, [104, 100], none, false⟩,
      Event.userChanged ⟨0, [97], none, [104, 97, 50], none, false⟩,
      Event.userRemoved ⟨2, [99], none, [104, 99], none, false⟩] :
        List Event) ≠
      [Event.userChanged ⟨0, [97], none, [104, 97, 50], none, false⟩,
       Event.userAdded ⟨5, [100], none, [104, 100], none, false⟩,
       Event.userRemoved ⟨2, [99], none, [104, 99], none, false⟩] := by
  refine ⟨by decide, by decide, by decide⟩

/-- C5 (amended): in the concrete synchronization scenario — baseline
accounts a, b, c, then a reload with the home directory of a changed, c
removed and d added — the baseline load emits zero notifications and
the second load emits exactly three, in this order: one USER_ADDED,
then one USER_CHANGED, then one USER_REMOVED. -/
theorem sync_scenario_added_then_changed_then_removed :
    (load_users false [] 0
      [⟨[97], none, [104, 97], none⟩, ⟨[98], none, [104, 98], none⟩,
       ⟨[99], none, [104, 99], none⟩]).2 = [] ∧
    (load_users true
      (load_users false [] 0
        [⟨[97], none, [104, 97], none⟩, ⟨[98], none, [104, 98], none⟩,
         ⟨[99], none, [104, 99], none⟩]).1 3
      [⟨[97], none, [104, 97, 50], none⟩, ⟨[98], none, [104, 98], none⟩,
       ⟨[100], none, [104, 100], none⟩]).2 =
      [Event.userAdded ⟨5, [100], none, [104, 100], none, false⟩,
       Event.userChanged ⟨0, [97], none, [104, 97, 50], none, false⟩,
       Event.userRemoved ⟨2, [99], none, [104, 99], none, false⟩] := by
  refine ⟨by decide, by decide⟩
